import Mathlib

/-!
# Verification of the es_client configuration resolution engine

A shallow embedding, in Lean 4, of the configuration resolution and
validation core of the `es_client` repository
(`src/es_client/utils.py`, `src/es_client/builder.py`,
`src/es_client/schemacheck.py`, `src/es_client/defaults.py`), together
with theorems settling the frozen claims about it.

Python strings are modelled as `List Char`; Python `None` is modelled
with `Option`; Python exceptions are modelled with `Except` over an
explicit error type `PyErr`.  Dictionaries are modelled as association
lists (insertion order preserved, as in Python 3.7+ dicts).
-/

namespace EsClient

/-! ## Definitions: the shallow embedding of the code under test -/

/-- The Python exceptions that the modelled code can raise.
`configurationError` is `es_client.exceptions.ConfigurationError`;
`esClientException` is `es_client.exceptions.ESClientException`;
`indexError`, `valueError` and `unicodeEncodeError` are the Python
built-in exceptions of the same names (which the modelled code can let
escape). -/
inductive PyErr where
  | configurationError (msg : String)
  | indexError
  | valueError
  | unicodeEncodeError
  | esClientException (msg : String)
deriving DecidableEq, Repr

deriving instance DecidableEq for Except

/-- Model of Python `str.split(sep)` for a single-character separator:
always returns at least one (possibly empty) piece. -/
def splitOnChar (c : Char) : List Char → List (List Char)
  | [] => [[]]
  | x :: xs =>
    match splitOnChar c xs with
    | [] => [[]]
    | y :: ys => if x = c then [] :: y :: ys else (x :: y) :: ys

/-- Joining with a separator character: the inverse of `splitOnChar`. -/
def joinWith (c : Char) : List (List Char) → List Char
  | [] => []
  | [x] => x
  | x :: y :: ys => x ++ c :: joinWith c (y :: ys)

/-- Model of Python `str.lower()` (ASCII range, which is all the code
relies on for URL schemes). -/
def pyLower (s : List Char) : List Char := s.map Char.toLower

/-- `es_client.helpers.utils.verify_url_schema`, translated from
`src/es_client/utils.py`.  The source lowercases the URL, splits on
`':'`, and then:
* fewer than 3 parts: pick default port 443/80 for scheme
  `https`/`http`, any other scheme raises `ConfigurationError`; the
  final `parts[0] + ":" + parts[1] + ":" + port` raises `IndexError`
  when the split produced a single part (no `':'` in the URL at all);
* exactly 3 parts: scheme must be `http`/`https`, the given port is
  kept;
* more than 3 parts: raises `ConfigurationError`. -/
def verify_url_schema (url : List Char) : Except PyErr (List Char) :=
  let errmsg : PyErr := .configurationError ("URL Schema invalid for " ++ String.mk url)
  match splitOnChar ':' (pyLower url) with
  | [] => .error .indexError
  | [p0] =>
      if p0 = "https".data ∨ p0 = "http".data then .error .indexError
      else .error errmsg
  | [p0, p1] =>
      if p0 = "https".data then .ok (p0 ++ ':' :: p1 ++ ':' :: "443".data)
      else if p0 = "http".data then .ok (p0 ++ ':' :: p1 ++ ':' :: "80".data)
      else .error errmsg
  | [p0, p1, p2] =>
      if p0 ≠ "http".data ∧ p0 ≠ "https".data then .error errmsg
      else .ok (p0 ++ ':' :: p1 ++ ':' :: p2)
  | _ => .error errmsg

/-- Python values as they appear in nested configuration dictionaries.
`vNone` is Python `None`; dictionaries are association lists in
insertion order. -/
inductive Val where
  | vNone : Val
  | vStr : String → Val
  | vNat : Nat → Val
  | vBool : Bool → Val
  | vList : List Val → Val
  | vDict : List (String × Val) → Val
deriving Repr

/-- The filtering condition of `es_client.helpers.utils.prune_nones`:
a value is dropped when it `is None` or equals the string `"None"`
(in Python, only a string can compare equal to `"None"`). -/
def isNoneLike : Val → Bool
  | .vNone => true
  | .vStr s => s = "None"
  | _ => false

/-- `es_client.helpers.utils.prune_nones`, translated from
`src/es_client/utils.py`: keep the key/value pairs whose value
`is not None and v != "None"`. -/
def prune_nones (mydict : List (String × Val)) : List (String × Val) :=
  mydict.filter (fun kv => !(isNoneLike kv.2))

/-- `es_client.defaults.KEYS_TO_REDACT`, translated from
`src/es_client/defaults.py`. -/
def KEYS_TO_REDACT : List String :=
  ["password", "basic_auth", "bearer_auth", "api_key", "id", "opaque_id"]

/-- The nested `iterdict` helper of
`es_client.helpers.schemacheck.password_filter`: for each entry, a
dict value is recursed into (the `isinstance(value, dict)` branch),
and otherwise (`elif`) a key listed in `KEYS_TO_REDACT` has its value
replaced with `"REDACTED"`. -/
def iterdict : List (String × Val) → List (String × Val)
  | [] => []
  | (k, v) :: rest =>
    match v with
    | .vDict d => (k, .vDict (iterdict d)) :: iterdict rest
    | _ =>
      (if k ∈ KEYS_TO_REDACT then (k, Val.vStr "REDACTED") else (k, v)) ::
        iterdict rest

/-- `es_client.helpers.schemacheck.password_filter`, translated from
`src/es_client/schemacheck.py`.  The Python function deep-copies its
argument and mutates the copy via `iterdict`; in this pure model the
deep copy is the identity and non-mutation of the input argument holds
by construction. -/
def password_filter (data : List (String × Val)) : List (String × Val) :=
  iterdict data

/-- The path-expression parse inside `SchemaCheck.parse_error`'s nested
`get_badvalue`: `sub(r"[\'\]]", "", data_string).split("[")` followed by
`elements.pop(0)` (dropping the leading `data` piece). -/
def pathElements (data_string : List Char) : List (List Char) :=
  (splitOnChar '[' (data_string.filter (fun c => !(c = '\'' || c = ']')))).drop 1

/-- Model of Python `int(s)` on path components: digit strings.
(Python `int` also accepts signs and surrounding whitespace, which do
not occur in voluptuous path components.) -/
def parsePyInt (s : List Char) : Option Nat :=
  if s ≠ [] ∧ s.all Char.isDigit then
    some (s.foldl (fun acc c => acc * 10 + (c.toNat - '0'.toNat)) 0)
  else none

/-- One Python subscript `data[key]` as performed by `get_badvalue`:
the key is `int(k)` when `k` parses as an integer, else the string `k`
itself.  An integer key indexes a list (or a string, yielding a
one-character string); a string key looks up a dict; every other
combination raises (`KeyError`/`IndexError`/`TypeError`), modelled as
`Except.error ()`. -/
def pySubscript (data : Val) (k : List Char) : Except Unit Val :=
  match parsePyInt k with
  | some i =>
    match data with
    | .vList xs =>
      match xs.get? i with
      | some v => .ok v
      | none => .error ()
    | .vStr s =>
      match s.data.get? i with
      | some c => .ok (.vStr (String.mk [c]))
      | none => .error ()
    | _ => .error ()
  | none =>
    match data with
    | .vDict d =>
      match d.find? (fun kv => kv.1 = String.mk k) with
      | some kv => .ok kv.2
      | none => .error ()
    | _ => .error ()

/-- The loop of `get_badvalue`: `value` starts as Python `None` and is
assigned `data[key]` only while it is still `None` (the
`if value is None` guard); keys after the first non-None lookup are
ignored, and every lookup always subscripts the original `data`. -/
def gbWalk (data : Val) : List (List Char) → Val → Except Unit Val
  | [], value => .ok value
  | k :: rest, value =>
    match value with
    | .vNone =>
      match pySubscript data k with
      | .error e => .error e
      | .ok v => gbWalk data rest v
    | _ => gbWalk data rest value

/-- `get_badvalue` from `SchemaCheck.parse_error`, translated from
`src/es_client/schemacheck.py`. -/
def get_badvalue (data_string : List Char) (data : Val) : Except Unit Val :=
  gbWalk data (pathElements data_string) Val.vNone

/-- Model of Python `str.split()` with no argument (split on
whitespace runs, dropping empty pieces); the error strings involved
contain only spaces. -/
def splitWsAux : List Char → List Char → List (List Char)
  | [], acc => if acc.isEmpty then [] else [acc.reverse]
  | c :: cs, acc =>
    if c = ' ' then
      if acc.isEmpty then splitWsAux cs [] else acc.reverse :: splitWsAux cs []
    else splitWsAux cs (c :: acc)

def splitWs (s : List Char) : List (List Char) := splitWsAux s []

/-- `SchemaCheck.parse_error`, translated from
`src/es_client/schemacheck.py`: take the last whitespace-separated
token of the error string (`str(self.error).split()[-1]`) as the path
expression and run `get_badvalue` on it against the original config;
any exception in the extraction (including the `[-1]` on an empty
token list) is caught and the bad value falls back to the string
`"(could not determine)"`. -/
def parse_error (errorString : List Char) (config : Val) : Val :=
  match (splitWs errorString).getLast? with
  | none => Val.vStr "(could not determine)"
  | some tok =>
    match get_badvalue tok config with
    | .ok v => v
    | .error _ => Val.vStr "(could not determine)"

/-- Index of a character in the standard base64 alphabet, `none` for
characters outside it. -/
def b64charVal (c : Char) : Option Nat :=
  if 'A' ≤ c ∧ c ≤ 'Z' then some (c.toNat - 'A'.toNat)
  else if 'a' ≤ c ∧ c ≤ 'z' then some (c.toNat - 'a'.toNat + 26)
  else if '0' ≤ c ∧ c ≤ '9' then some (c.toNat - '0'.toNat + 52)
  else if c = '+' then some 62
  else if c = '/' then some 63
  else none

/-- Reassemble 6-bit base64 groups into 8-bit bytes; a trailing group
of a single character is invalid. -/
def b64groups : List Nat → Option (List Nat)
  | [] => some []
  | [_] => none
  | [a, b] => some [a * 4 + b / 16]
  | [a, b, c] => some [a * 4 + b / 16, b % 16 * 16 + c / 4]
  | a :: b :: c :: d :: rest =>
    (b64groups rest).map
      (fun r => (a * 4 + b / 16) :: (b % 16 * 16 + c / 4) :: (c % 4 * 64 + d) :: r)

/-- Model of Python `base64.b64decode` in its default non-strict mode
(an external standard-library collaborator of the code under test):
characters outside the alphabet and `'='` are discarded, the remaining
length must be a multiple of 4 (else `binascii.Error`), and data stops
at the first padding `'='`. -/
def b64decodeBytes (s : List Char) : Option (List Nat) :=
  let filtered := s.filter (fun c => (b64charVal c).isSome || c = '=')
  if filtered.length % 4 ≠ 0 then none
  else b64groups ((filtered.takeWhile (fun c => c ≠ '=')).filterMap b64charVal)

/-- A UTF-8 continuation byte. -/
def isCont (b : Nat) : Bool := decide (128 ≤ b ∧ b < 192)

/-- Model of strict UTF-8 decoding (Python `bytes.decode("utf-8")`, an
external standard-library collaborator): rejects truncated sequences,
overlong encodings and surrogates (`UnicodeDecodeError`). -/
def utf8Decode : List Nat → Option (List Char)
  | [] => some []
  | b :: rest =>
    if b < 128 then (utf8Decode rest).map (fun cs => Char.ofNat b :: cs)
    else if 194 ≤ b ∧ b ≤ 223 then
      match rest with
      | b2 :: rest2 =>
        if isCont b2 then
          (utf8Decode rest2).map
            (fun cs => Char.ofNat ((b - 192) * 64 + (b2 - 128)) :: cs)
        else none
      | [] => none
    else if 224 ≤ b ∧ b ≤ 239 then
      match rest with
      | b2 :: b3 :: rest3 =>
        if ((if b = 224 then decide (160 ≤ b2 ∧ b2 ≤ 191)
             else if b = 237 then decide (128 ≤ b2 ∧ b2 ≤ 159)
             else isCont b2) && isCont b3) = true then
          (utf8Decode rest3).map
            (fun cs =>
              Char.ofNat ((b - 224) * 4096 + (b2 - 128) * 64 + (b3 - 128)) :: cs)
        else none
      | _ => none
    else if 240 ≤ b ∧ b ≤ 244 then
      match rest with
      | b2 :: b3 :: b4 :: rest4 =>
        if ((if b = 240 then decide (144 ≤ b2 ∧ b2 ≤ 191)
             else if b = 244 then decide (128 ≤ b2 ∧ b2 ≤ 143)
             else isCont b2) && isCont b3 && isCont b4) = true then
          (utf8Decode rest4).map
            (fun cs =>
              Char.ofNat
                ((b - 240) * 262144 + (b2 - 128) * 4096 + (b3 - 128) * 64 +
                  (b4 - 128)) :: cs)
        else none
      | _ => none
    else none

/-- `es_client.helpers.utils.parse_apikey_token`, translated from
`src/es_client/utils.py`.  The `try` block covers only the decoding
(`binascii.Error`/`UnicodeDecodeError` are caught and re-raised as
`ConfigurationError`; a non-ASCII token makes `b64decode`'s internal
`s.encode("ascii")` raise `UnicodeEncodeError`, which the `except`
clause does not list).  The final `(split[0], split[1])` indexing
happens *outside* the `try`, so a decoded string containing no `':'`
raises an uncaught `IndexError`, and a decoded string with three or
more parts returns the first two without error. -/
def parse_apikey_token (token : List Char) :
    Except PyErr (List Char × List Char) :=
  if ¬ token.all (fun c => c.toNat < 128) then .error .unicodeEncodeError
  else
    match (b64decodeBytes token).bind utf8Decode with
    | none => .error (.configurationError "Unable to parse base64 API Key Token")
    | some decoded =>
      match splitOnChar ':' decoded with
      | a :: b :: _ => .ok (a, b)
      | _ => .error .indexError

/-- `es_client.helpers.utils.get_version`, translated from
`src/es_client/utils.py`, as a function of the version string reported
by `client.info()["version"]["number"]` (the network call itself is an
external collaborator).  `version.split("-")[0]` keeps everything
before the first dash; when the dot-split has more than three segments
exactly one trailing segment is dropped (`[:-1]`); each remaining
segment goes through `int()`, whose failure on a non-numeric segment
is an uncaught `ValueError`. -/
def get_version (number : List Char) : Except PyErr (List Nat) :=
  match splitOnChar '-' number with
  | [] => .error .indexError
  | version :: _ =>
    let segs := splitOnChar '.' version
    let segs := if segs.length > 3 then segs.dropLast else segs
    match segs.mapM parsePyInt with
    | some v => .ok v
    | none => .error .valueError

/-- Python comparison `<` on integer tuples: lexicographic, a strict
prefix is smaller. -/
def tupLt : List Nat → List Nat → Bool
  | _, [] => false
  | [], _ :: _ => true
  | x :: xs, y :: ys => if x < y then true else if y < x then false else tupLt xs ys

/-- The version string `'.'.join(map(str, v))` used in the
`UNSUPPORTED_VERSION` message. -/
def versionString (v : List Nat) : String :=
  String.intercalate "." (v.map toString)

/-- `Builder._check_version`, translated from
`src/es_client/builder.py`, as a function of the version string
reported by the connected cluster: `get_version` is always evaluated
first; when `skip_version_test` is true only a warning is logged;
otherwise `ESClientException` is raised iff
`v >= self.version_max or v < self.version_min` under Python tuple
comparison. -/
def check_version (skip_version_test : Bool) (version_min version_max : List Nat)
    (number : List Char) : Except PyErr Unit :=
  match get_version number with
  | .error e => .error e
  | .ok v =>
    if skip_version_test then .ok ()
    else if !(tupLt v version_max) || tupLt v version_min then
      .error (.esClientException
        ("Elasticsearch version " ++ versionString v ++ " not supported"))
    else .ok ()

/-- The secret values handled by the modelled flow: Python `None`
(stored as JSON `null`), strings, and credential tuples. -/
inductive SVal where
  | null : SVal
  | str : String → SVal
  | pair : SVal → SVal → SVal
deriving DecidableEq, Repr

/-- `es_client.builder.SecretStore`: Fernet encryption round-trips
every stored value inside one process, so the store is modelled as an
association map from names to stored values. -/
abbrev SecretStore := List (String × SVal)

/-- `SecretStore.store_secret`: overwrites any prior entry under
`name` (last write wins). -/
def store_secret (st : SecretStore) (name : String) (value : SVal) : SecretStore :=
  (name, value) :: st.filter (fun kv => kv.1 ≠ name)

/-- `SecretStore.get_secret`, raw contents: `none` when absent. -/
def get_secret (st : SecretStore) (name : String) : Option SVal :=
  (st.find? (fun kv => kv.1 = name)).map (fun kv => kv.2)

/-- The Python-visible result of `get_secret`: an absent entry and a
stored JSON `null` both read back as `None`. -/
def get_secret_py (st : SecretStore) (name : String) : SVal :=
  (get_secret st name).getD .null

/-- The `api_key` sub-dictionary of the other settings:
`{id, api_key, token}`.  `none` models an absent subkey (the schema
gives these no defaults) as well as an explicit `None`. -/
structure ApiKeyConf where
  id : Option String
  api_key : Option String
  token : Option String
deriving DecidableEq, Repr

/-- The modelled slice of the client settings (the `CLIENT_SETTINGS`
keys the claims exercise).  `none` models Python `None`, which is also
the initial value of every key after `set_client_defaults`; after
schema validation a missing key and a `None`-valued key behave alike
for these fields. -/
structure ClientArgs where
  hosts : Option (List String)
  cloud_id : Option String
  basic_auth : Option SVal
  api_key : Option SVal
  bearer_auth : Option SVal
deriving DecidableEq, Repr

/-- The modelled slice of the other settings (`OTHER_SETTINGS`). -/
structure OtherArgs where
  master_only : Option Bool
  skip_version_test : Option Bool
  username : Option String
  password : Option String
  api_key : Option ApiKeyConf
deriving DecidableEq, Repr

/-- The validated configuration (`self.config`): the `client` and
`other_settings` blocks. -/
structure Config where
  client : ClientArgs
  other_settings : OtherArgs
deriving DecidableEq, Repr

/-- The modelled slice of `Builder` state: the validated config, the
working `client_args`/`other_args`, the `SecretStore`, and the
attributes that `update_config` sets. -/
structure Builder where
  config : Config
  client_args : ClientArgs
  other_args : OtherArgs
  secrets : SecretStore
  master_only : Option Bool
  is_master : Bool
  skip_version_test : Option Bool
deriving DecidableEq, Repr

/-- A `Builder` right after `__init__` has run `set_client_defaults`,
`set_other_defaults` and `process_config_opts`, before
`update_config`: every working key is `None`, the `SecretStore` is
fresh (one per Builder instance), and the attributes `update_config`
sets are still unset. -/
def mkBuilder (config : Config) : Builder :=
  { config := config
    client_args := ⟨none, none, none, none, none⟩
    other_args := ⟨none, none, none, none, none⟩
    secrets := []
    master_only := none
    is_master := false
    skip_version_test := none }

/-- One sensitive-field migration step of `Builder.update_config`: a
non-None value is stored under `name` and the field is nulled. -/
def migrateField (st : SecretStore) (name : String) (v : Option SVal) :
    SecretStore × Option SVal :=
  match v with
  | some x => (store_secret st name x, none)
  | none => (st, none)

/-- `Builder.update_config`, translated from
`src/es_client/builder.py`: merge `config.client` and
`config.other_settings` into the working args (`DotMap.update`; after
schema validation the modelled keys all come from the config blocks),
move non-None `basic_auth`/`api_key`/`bearer_auth` from `client_args`
and `password` from `other_args` into the `SecretStore` — nulling the
field in both the working copy and the validated config — then set
`master_only`, `is_master := False` and `skip_version_test` (whose
key is always present after `set_other_defaults`). -/
def update_config (b : Builder) : Builder :=
  let ca0 := b.config.client
  let oa0 := b.config.other_settings
  let s1 := migrateField b.secrets "basic_auth" ca0.basic_auth
  let s2 := migrateField s1.1 "api_key" ca0.api_key
  let s3 := migrateField s2.1 "bearer_auth" ca0.bearer_auth
  let s4 :=
    match oa0.password with
    | some p => (store_secret s3.1 "password" (.str p), (none : Option String))
    | none => (s3.1, none)
  let ca := { ca0 with basic_auth := s1.2, api_key := s2.2, bearer_auth := s3.2 }
  let oa := { oa0 with password := s4.2 }
  { b with
    config := { client := ca, other_settings := oa }
    client_args := ca
    other_args := oa
    secrets := s4.1
    master_only := oa.master_only
    is_master := false
    skip_version_test := oa.skip_version_test }

/-- Error message constants from `src/es_client/builder.py`. -/
def MUST_PROVIDE_BOTH_AUTH : String :=
  "Must populate both username and password, or neither"

def MUST_PROVIDE_BOTH_API_KEY : String :=
  "Must populate both id and api_key, or neither"

def HOSTS_AND_CLOUD_ID_CONFLICT : String :=
  "Cannot populate both \"hosts\" and \"cloud_id\""

/-- `Builder._check_basic_auth`, translated from
`src/es_client/builder.py`.  `"username"`/`"password"` are always keys
of `other_args` after `set_other_defaults`, so the enclosing presence
guard always holds; `usr` is the working `username` and `pwd` is the
Secret-Store-held password (the plain field was nulled by
`update_config`; in the modelled flow the stored password is always a
string).  Neither present: no-op; exactly one: `ConfigurationError`;
both: store the pair under `basic_auth`. -/
def check_basic_auth (b : Builder) : Except PyErr Builder :=
  match b.other_args.username, get_secret_py b.secrets "password" with
  | none, .null => .ok b
  | none, _ => .error (.configurationError MUST_PROVIDE_BOTH_AUTH)
  | some _, .null => .error (.configurationError MUST_PROVIDE_BOTH_AUTH)
  | some u, pwd =>
    .ok { b with
      secrets := store_secret b.secrets "basic_auth" (.pair (.str u) pwd) }

/-- `Builder._check_api_key`, translated from
`src/es_client/builder.py`.  `"api_key"` is always a key of
`other_args` after `set_other_defaults`, so the early return for a
missing key never fires, and `DotMap(None)` is an empty map, so a
`None` value behaves like an empty sub-dictionary.  A truthy
(non-empty) token wins over `id`/`api_key` and is cleared from both
the working args and the validated config after parsing; otherwise
`id` and `api_key` must be given together (an explicit `None` is
stored when both are absent). -/
def check_api_key (b : Builder) : Except PyErr Builder :=
  let akc := b.other_args.api_key.getD ⟨none, none, none⟩
  let cfgAkc := b.config.other_settings.api_key.getD ⟨none, none, none⟩
  if (akc.token.getD "") ≠ "" then
    match parse_apikey_token (akc.token.getD "").data with
    | .error e => .error e
    | .ok (api_id, api_key) =>
      .ok { b with
        secrets := store_secret b.secrets "api_key"
          (.pair (.str (String.mk api_id)) (.str (String.mk api_key)))
        other_args := { b.other_args with api_key := some { akc with token := none } }
        config := { b.config with other_settings :=
          { b.config.other_settings with
              api_key := some { cfgAkc with token := none } } } }
  else
    match akc.id, akc.api_key with
    | none, none =>
      .ok { b with secrets := store_secret b.secrets "api_key" .null }
    | some i, some k =>
      .ok { b with
        secrets := store_secret b.secrets "api_key" (.pair (.str i) (.str k))
        other_args := { b.other_args with
          api_key := some { akc with id := none, api_key := none } }
        config := { b.config with other_settings :=
          { b.config.other_settings with
              api_key := some { cfgAkc with id := none, api_key := none } } } }
    | _, _ => .error (.configurationError MUST_PROVIDE_BOTH_API_KEY)

/-- `Builder._check_cloud_id`, translated from
`src/es_client/builder.py`: only acts when `cloud_id` is set; a host
list equal to the single built-in default `["http://127.0.0.1:9200"]`
is silently cleared; a host list still present afterwards conflicts
with `cloud_id` and raises `ConfigurationError`. -/
def check_cloud_id (b : Builder) : Except PyErr Builder :=
  match b.client_args.cloud_id with
  | none => .ok b
  | some _ =>
    let b' :=
      if b.client_args.hosts = some ["http://127.0.0.1:9200"] ∧
          (b.client_args.hosts.getD []).length = 1 then
        { b with client_args := { b.client_args with hosts := none } }
      else b
    match b'.client_args.hosts with
    | some _ => .error (.configurationError HOSTS_AND_CLOUD_ID_CONFLICT)
    | none => .ok b'

/-- Concrete configurations used as witnesses. -/
def cfgCloudDefault : Config :=
  ⟨⟨some ["http://127.0.0.1:9200"], some "cid", none, none, none⟩,
   ⟨none, none, none, none, none⟩⟩

def cfgCloudHosts : Config :=
  ⟨⟨some ["http://esnode:9200"], some "cid", none, none, none⟩,
   ⟨none, none, none, none, none⟩⟩

def cfgUserOnly : Config :=
  ⟨⟨none, none, none, none, none⟩, ⟨none, none, some "u", none, none⟩⟩

def cfgUserPass : Config :=
  ⟨⟨none, none, none, none, none⟩, ⟨none, none, some "u", some "p", none⟩⟩

def cfgTokenAndId : Config :=
  ⟨⟨none, none, none, none, none⟩,
   ⟨none, none, none, none, some ⟨some "x", some "y", some "Zm9vOmJhcg=="⟩⟩⟩

/-- The Builder state produced by the token branch of
`_check_api_key`: the parsed pair is stored under `api_key` and the
token is cleared from both the working args and the validated
config. -/
def tokenBranchResult (b : Builder) (api_id api_key : List Char) : Builder :=
  let akc := b.other_args.api_key.getD ⟨none, none, none⟩
  let cfgAkc := b.config.other_settings.api_key.getD ⟨none, none, none⟩
  { b with
    secrets := store_secret b.secrets "api_key"
      (.pair (.str (String.mk api_id)) (.str (String.mk api_key)))
    other_args := { b.other_args with api_key := some { akc with token := none } }
    config := { b.config with other_settings :=
      { b.config.other_settings with
          api_key := some { cfgAkc with token := none } } } }

def cfgAllSecrets : Config :=
  ⟨⟨some ["http://127.0.0.1:9200"], none, some (.pair (.str "a") (.str "b")),
     some (.pair (.str "i") (.str "k")), some (.str "bearer")⟩,
   ⟨some false, some false, some "u", some "pw", none⟩⟩

/-! ## Theorems settling the claims -/

theorem splitOnChar_ne_nil (c : Char) (s : List Char) : splitOnChar c s ≠ [] := by
  cases s with
  | nil => simp [splitOnChar]
  | cons x xs =>
    simp only [splitOnChar]
    cases splitOnChar c xs with
    | nil => simp
    | cons y ys =>
      by_cases h : x = c <;> simp [h]

theorem joinWith_splitOnChar (c : Char) (s : List Char) :
    joinWith c (splitOnChar c s) = s := by
  induction s with
  | nil => rfl
  | cons x xs ih =>
    cases hs : splitOnChar c xs with
    | nil => exact absurd hs (splitOnChar_ne_nil c xs)
    | cons y ys =>
      rw [hs] at ih
      by_cases h : x = c
      · subst h
        simp [splitOnChar, hs, joinWith, ih]
      · simp only [splitOnChar, hs, if_neg h]
        cases ys with
        | nil => simpa [joinWith] using congrArg (x :: ·) ih
        | cons z zs => simpa [joinWith] using congrArg (x :: ·) ih

theorem joinWith_pair (c : Char) (a b : List Char) :
    joinWith c [a, b] = a ++ c :: b := by
  simp [joinWith]

/-- C5: for every host URL string (a string of the form `scheme:rest`,
so that splitting the lowercased URL on `':'` yields at least two
parts), `verify_url_schema` maps scheme `http` with no port to default
port 80 and scheme `https` with no port to default port 443, and
raises `ConfigurationError` for any scheme other than `http`/`https`
or for a URL with more than one extra colon-separated segment. -/
theorem verify_url_schema_correct (url : List Char) :
    (∀ p1, splitOnChar ':' (pyLower url) = ["http".data, p1] →
        verify_url_schema url = .ok (pyLower url ++ ':' :: "80".data)) ∧
    (∀ p1, splitOnChar ':' (pyLower url) = ["https".data, p1] →
        verify_url_schema url = .ok (pyLower url ++ ':' :: "443".data)) ∧
    (∀ p0 p1, splitOnChar ':' (pyLower url) = [p0, p1] →
        p0 ≠ "http".data → p0 ≠ "https".data →
        verify_url_schema url =
          .error (.configurationError ("URL Schema invalid for " ++ String.mk url))) ∧
    (∀ p0 p1 p2, splitOnChar ':' (pyLower url) = [p0, p1, p2] →
        p0 ≠ "http".data → p0 ≠ "https".data →
        verify_url_schema url =
          .error (.configurationError ("URL Schema invalid for " ++ String.mk url))) ∧
    (4 ≤ (splitOnChar ':' (pyLower url)).length →
        verify_url_schema url =
          .error (.configurationError ("URL Schema invalid for " ++ String.mk url))) := by
  refine ⟨?_, ?_, ?_, ?_, ?_⟩
  · intro p1 h
    have hj : "http".data ++ ':' :: p1 = pyLower url := by
      have hjs := joinWith_splitOnChar ':' (pyLower url)
      rw [h, joinWith_pair] at hjs
      exact hjs
    simp only [verify_url_schema, h]
    rw [← hj]
    simp [List.append_assoc]
  · intro p1 h
    have hj : "https".data ++ ':' :: p1 = pyLower url := by
      have hjs := joinWith_splitOnChar ':' (pyLower url)
      rw [h, joinWith_pair] at hjs
      exact hjs
    simp only [verify_url_schema, h]
    rw [← hj]
    simp [List.append_assoc]
  · intro p0 p1 h hh hs
    simp only [verify_url_schema, h]
    rw [if_neg hs, if_neg hh]
  · intro p0 p1 p2 h hh hs
    simp only [verify_url_schema, h]
    rw [if_pos ⟨hh, hs⟩]
  · intro h4
    rcases hsp : splitOnChar ':' (pyLower url) with
      _ | ⟨p0, _ | ⟨p1, _ | ⟨p2, _ | ⟨p3, rest⟩⟩⟩⟩ <;>
      rw [hsp] at h4 <;> simp at h4
    simp only [verify_url_schema, hsp]

/-- Witness for C5 at the spec's concrete inputs. -/
theorem verify_url_schema_correct_witness :
    verify_url_schema "https://127.0.0.1".data = .ok "https://127.0.0.1:443".data ∧
    verify_url_schema "http://127.0.0.1".data = .ok "http://127.0.0.1:80".data ∧
    verify_url_schema "ftp://x".data =
      .error (.configurationError "URL Schema invalid for ftp://x") ∧
    verify_url_schema "http://127.0.0.1:1234:5678".data =
      .error
        (.configurationError "URL Schema invalid for http://127.0.0.1:1234:5678") := by
  refine ⟨?_, ?_, ?_, ?_⟩
  · rw [(verify_url_schema_correct "https://127.0.0.1".data).2.1
      "//127.0.0.1".data (by decide)]
    decide
  · rw [(verify_url_schema_correct "http://127.0.0.1".data).1
      "//127.0.0.1".data (by decide)]
    decide
  · exact (verify_url_schema_correct "ftp://x".data).2.2.1
      "ftp".data "//x".data (by decide) (by decide) (by decide)
  · exact (verify_url_schema_correct "http://127.0.0.1:1234:5678".data).2.2.2.2
      (by decide)

theorem isNoneLike_false_iff (v : Val) :
    (!(isNoneLike v)) = true ↔ v ≠ Val.vNone ∧ v ≠ Val.vStr "None" := by
  cases v <;> simp [isNoneLike]

/-- C10: `prune_nones` removes exactly the keys whose value is `None`
or the literal string `"None"`; every other key/value pair is kept
unchanged.  (Hence a field whose user-supplied value is the string
`"None"` is silently dropped by `Builder._get_client` before the
client is constructed.) -/
theorem prune_nones_mem (d : List (String × Val)) (k : String) (v : Val) :
    (k, v) ∈ prune_nones d ↔
      ((k, v) ∈ d ∧ v ≠ Val.vNone ∧ v ≠ Val.vStr "None") := by
  rw [prune_nones, List.mem_filter, isNoneLike_false_iff]

theorem iterdict_length (d : List (String × Val)) :
    (iterdict d).length = d.length := by
  induction d with
  | nil => simp [iterdict]
  | cons kv rest ih =>
    obtain ⟨k, v⟩ := kv
    cases v <;> simp [iterdict, ih]

theorem iterdict_cons (k : String) (v : Val) (rest : List (String × Val)) :
    iterdict ((k, v) :: rest) =
      (match v with
       | .vDict d => (k, Val.vDict (iterdict d))
       | _ => if k ∈ KEYS_TO_REDACT then (k, Val.vStr "REDACTED") else (k, v)) ::
      iterdict rest := by
  cases v <;> simp [iterdict]

/-- C9 counterexample: a sensitive key (`api_key` is in
`KEYS_TO_REDACT`) whose value is itself a dict is *not* replaced by
`"REDACTED"`: the `isinstance(value, dict)` branch recurses into the
value instead, and `token` is not a redacted key, so the structure
comes back entirely unchanged. -/
theorem password_filter_dict_value_not_redacted :
    password_filter [("api_key", Val.vDict [("token", Val.vStr "t")])] =
      [("api_key", Val.vDict [("token", Val.vStr "t")])] ∧
    Val.vDict [("token", Val.vStr "t")] ≠ Val.vStr "REDACTED" := by
  constructor
  · simp [password_filter, iterdict, KEYS_TO_REDACT]
  · intro h
    exact Val.noConfusion h

/-- C9 (amended): `password_filter` preserves the length, the keys and
the order of every dictionary level; an entry whose value is itself a
dict is recursed into (even when its key is sensitive, it is *not*
replaced by the placeholder); an entry whose value is not a dict is
replaced by `"REDACTED"` exactly when its key is in `KEYS_TO_REDACT`
and kept unchanged otherwise.  The input argument is not modified: the
Python function mutates only a deep copy, and this model is a pure
function of its argument. -/
theorem password_filter_correct (d : List (String × Val)) :
    (password_filter d).length = d.length ∧
    ∀ i k v, d.get? i = some (k, v) →
      (∀ sub, v = Val.vDict sub →
        (password_filter d).get? i = some (k, Val.vDict (iterdict sub))) ∧
      ((∀ sub, v ≠ Val.vDict sub) → k ∈ KEYS_TO_REDACT →
        (password_filter d).get? i = some (k, Val.vStr "REDACTED")) ∧
      ((∀ sub, v ≠ Val.vDict sub) → k ∉ KEYS_TO_REDACT →
        (password_filter d).get? i = some (k, v)) := by
  refine ⟨iterdict_length d, ?_⟩
  intro i k v hget
  induction d generalizing i with
  | nil => simp at hget
  | cons kv rest ih =>
    obtain ⟨k', v'⟩ := kv
    cases i with
    | zero =>
      simp only [List.get?_cons_zero, Option.some.injEq, Prod.mk.injEq] at hget
      obtain ⟨rfl, rfl⟩ := hget
      cases v'
      case vDict sub =>
        refine ⟨?_, ?_, ?_⟩
        · intro sub' heq
          obtain rfl := Val.vDict.inj heq
          simp [password_filter, iterdict_cons]
        · intro hnd _
          exact absurd rfl (hnd sub)
        · intro hnd _
          exact absurd rfl (hnd sub)
      all_goals
        refine ⟨fun sub heq => Val.noConfusion heq, ?_, ?_⟩ <;>
          (intro _ hk; simp [password_filter, iterdict_cons, hk])
    | succ n =>
      simp only [List.get?_cons_succ] at hget
      have := ih n hget
      simpa only [password_filter, iterdict_cons, List.get?_cons_succ] using this

/-- Witness for C9 at the spec's redaction example
`{"password": "secret", "nested": {"api_key": "k"}}`. -/
theorem password_filter_correct_witness :
    (password_filter [("password", Val.vStr "secret"),
        ("nested", Val.vDict [("api_key", Val.vStr "k")])]).get? 0 =
      some ("password", Val.vStr "REDACTED") ∧
    (password_filter [("password", Val.vStr "secret"),
        ("nested", Val.vDict [("api_key", Val.vStr "k")])]).get? 1 =
      some ("nested", Val.vDict (iterdict [("api_key", Val.vStr "k")])) := by
  constructor
  · exact ((password_filter_correct _).2 0 "password" (Val.vStr "secret")
      (by simp)).2.1 (fun sub heq => Val.noConfusion heq) (by simp [KEYS_TO_REDACT])
  · exact ((password_filter_correct _).2 1 "nested"
      (Val.vDict [("api_key", Val.vStr "k")]) (by simp)).1
      [("api_key", Val.vStr "k")] rfl

theorem gbWalk_nonNone (data : Val) (rest : List (List Char)) (v : Val)
    (hv : v ≠ Val.vNone) : gbWalk data rest v = .ok v := by
  induction rest with
  | nil => rfl
  | cons k ks ih =>
    have hstep : gbWalk data (k :: ks) v = gbWalk data ks v := by
      cases v
      case vNone => exact absurd rfl hv
      all_goals rfl
    rw [hstep, ih]

/-- C7 counterexample: for the validator path `data['client']['port']`
over the original input `{"client": {"port": 70000}}`, the reported
bad value is the whole `client` sub-dictionary — the value found at
the *first* path key — not the value `70000` found at the end of the
path, because the `if value is None` guard stops updating `value`
after the first successful lookup. -/
theorem parse_error_first_key_only :
    parse_error
        "expected int for dictionary value @ data['client']['port']".data
        (Val.vDict [("client", Val.vDict [("port", Val.vNat 70000)])]) =
      Val.vDict [("port", Val.vNat 70000)] ∧
    Val.vDict [("port", Val.vNat 70000)] ≠ Val.vNat 70000 := by
  exact ⟨rfl, fun h => Val.noConfusion h⟩

/-- C7 (amended): `parse_error` takes the last whitespace token of the
validator's message as the path expression and parses it into keys,
but — because `value` is only assigned while it `is None` — it
reports `data[k]` for the first path key `k` whose lookup yields a
non-None value, not the value at the end of the path; when the
extraction raises (or the message has no tokens), the bad value is
reported as `"(could not determine)"` and no secondary exception
propagates (the model is a total function). -/
theorem parse_error_correct (e : List Char) (config : Val) :
    (∀ tok, (splitWs e).getLast? = some tok →
      ∀ k rest v, pathElements tok = k :: rest →
        pySubscript config k = .ok v → v ≠ Val.vNone →
        parse_error e config = v) ∧
    (∀ tok, (splitWs e).getLast? = some tok →
      get_badvalue tok config = .error () →
      parse_error e config = Val.vStr "(could not determine)") ∧
    ((splitWs e).getLast? = none →
      parse_error e config = Val.vStr "(could not determine)") := by
  refine ⟨?_, ?_, ?_⟩
  · intro tok htok k rest v hpath hsub hv
    have hbad : get_badvalue tok config = .ok v := by
      rw [get_badvalue, hpath]
      simp only [gbWalk, hsub]
      exact gbWalk_nonNone config rest v hv
    simp only [parse_error, htok, hbad]
  · intro tok htok herr
    simp only [parse_error, htok, herr]
  · intro htok
    simp only [parse_error, htok]

/-- Witness for C7: a single-key path reports the value under that
key; a path whose first key is absent falls back to
`"(could not determine)"`. -/
theorem parse_error_correct_witness :
    parse_error "expected int for dictionary value @ data['port']".data
        (Val.vDict [("port", Val.vNat 70000)]) = Val.vNat 70000 ∧
    parse_error "expected int for dictionary value @ data['port']".data
        (Val.vDict []) = Val.vStr "(could not determine)" := by
  constructor
  · exact (parse_error_correct
      "expected int for dictionary value @ data['port']".data
      (Val.vDict [("port", Val.vNat 70000)])).1 "data['port']".data rfl
      "port".data [] (Val.vNat 70000) rfl rfl (fun h => Val.noConfusion h)
  · exact (parse_error_correct
      "expected int for dictionary value @ data['port']".data
      (Val.vDict [])).2.1 "data['port']".data rfl rfl

/-- C3 counterexample: the token `"YTpiOmM="` base64-decodes to
`"a:b:c"`, which splits on `':'` into three parts — not exactly two —
yet `parse_apikey_token` returns the first two parts `("a", "b")`
instead of raising `ConfigurationError`. -/
theorem parse_apikey_token_three_parts_no_error :
    parse_apikey_token "YTpiOmM=".data = .ok ("a".data, "b".data) ∧
    splitOnChar ':' "a:b:c".data = ["a".data, "b".data, "c".data] := by
  decide

/-- C3 (amended): for every ASCII token, a failure to base64-decode or
UTF-8-decode raises `ConfigurationError`; a decoded form splitting
into two or more colon-separated parts returns the first two parts
`(id, key)`; a decoded form containing no `':'` raises an uncaught
`IndexError` (the indexing happens outside the `try`/`except`), not
`ConfigurationError`. -/
theorem parse_apikey_token_correct (token : List Char)
    (hascii : token.all (fun c => c.toNat < 128) = true) :
    ((b64decodeBytes token).bind utf8Decode = none →
      parse_apikey_token token =
        .error (.configurationError "Unable to parse base64 API Key Token")) ∧
    (∀ decoded a b rest,
      (b64decodeBytes token).bind utf8Decode = some decoded →
      splitOnChar ':' decoded = a :: b :: rest →
      parse_apikey_token token = .ok (a, b)) ∧
    (∀ decoded,
      (b64decodeBytes token).bind utf8Decode = some decoded →
      (splitOnChar ':' decoded).length < 2 →
      parse_apikey_token token = .error .indexError) := by
  refine ⟨?_, ?_, ?_⟩
  · intro hdec
    simp [parse_apikey_token, hascii, hdec]
  · intro decoded a b rest hdec hsplit
    simp [parse_apikey_token, hascii, hdec, hsplit]
  · intro decoded hdec hlen
    rcases hsp : splitOnChar ':' decoded with _ | ⟨a, _ | ⟨b, rest⟩⟩
    · exact absurd hsp (splitOnChar_ne_nil ':' decoded)
    · simp [parse_apikey_token, hascii, hdec, hsp]
    · rw [hsp] at hlen
      simp only [List.length_cons] at hlen
      omega

/-- Witness for C3 at concrete tokens: `"Zm9vOmJhcg=="` decodes to
`"foo:bar"` and parses; `"invalid"` fails base64 decoding (incorrect
padding) and raises `ConfigurationError`; `"Zm9vYmFy"` decodes to the
colon-free `"foobar"` and raises the uncaught `IndexError`. -/
theorem parse_apikey_token_correct_witness :
    parse_apikey_token "Zm9vOmJhcg==".data = .ok ("foo".data, "bar".data) ∧
    parse_apikey_token "invalid".data =
      .error (.configurationError "Unable to parse base64 API Key Token") ∧
    parse_apikey_token "Zm9vYmFy".data = .error .indexError := by
  refine ⟨?_, ?_, ?_⟩
  · exact (parse_apikey_token_correct "Zm9vOmJhcg==".data (by decide)).2.1
      "foo:bar".data "foo".data "bar".data [] (by decide) (by decide)
  · exact (parse_apikey_token_correct "invalid".data (by decide)).1 (by decide)
  · exact (parse_apikey_token_correct "Zm9vYmFy".data (by decide)).2.2
      "foobar".data (by decide) (by decide)

/-- C6 counterexample: the reported version string `"1.2.3.4.5"` is
not parsed into a 3-tuple of integers — only the final dot-segment is
discarded, leaving the 4-tuple `(1, 2, 3, 4)`; and with
`skip_version_test` true the non-numeric version `"8.x.3"` still
raises an error (an uncaught `ValueError` from `int()`), so it is not
the case that no version error is raised for any version. -/
theorem get_version_not_three_tuple :
    get_version "1.2.3.4.5".data = .ok [1, 2, 3, 4] ∧
    Except.map List.length (get_version "1.2.3.4.5".data) ≠ Except.ok 3 ∧
    check_version true [8, 0, 0] [8, 99, 99] "8.x.3".data =
      .error .valueError := by
  decide

/-- C6 (amended): the version check parses the reported string by
taking everything before the first `'-'`, splitting on `'.'` and
dropping exactly one trailing segment when there are more than three
(so five numeric segments yield a 4-tuple); a non-numeric segment is
an uncaught `ValueError` even when `skip_version_test` is true.  For a
successfully parsed tuple `v`: with `skip_version_test` true no error
is raised; otherwise `ESClientException` is raised iff `v` is outside
the half-open range `[version_min, version_max)` in Python tuple
order. -/
theorem check_version_correct (vmin vmax : List Nat) (number : List Char) :
    (∀ v, get_version number = .ok v →
      check_version true vmin vmax number = .ok () ∧
      (tupLt v vmax = true → tupLt v vmin = false →
        check_version false vmin vmax number = .ok ()) ∧
      (tupLt v vmax = false ∨ tupLt v vmin = true →
        check_version false vmin vmax number =
          .error (.esClientException
            ("Elasticsearch version " ++ versionString v ++ " not supported")))) ∧
    (∀ e, get_version number = .error e →
      ∀ skip, check_version skip vmin vmax number = .error e) := by
  constructor
  · intro v hv
    refine ⟨?_, ?_, ?_⟩
    · simp [check_version, hv]
    · intro hmax hmin
      simp [check_version, hv, hmax, hmin]
    · intro hout
      rcases hout with hmax | hmin
      · simp [check_version, hv, hmax]
      · simp [check_version, hv, hmin]
  · intro e he skip
    simp [check_version, he]

/-- Witness for C6: version `8.11.4` is inside `[(8,0,0), (8,99,99))`;
`7.17.0-SNAPSHOT` parses to `(7,17,0)` and is rejected; with
`skip_version_test` true even `99.0.0` passes. -/
theorem check_version_correct_witness :
    check_version false [8, 0, 0] [8, 99, 99] "8.11.4".data = .ok () ∧
    check_version false [8, 0, 0] [8, 99, 99] "7.17.0-SNAPSHOT".data =
      .error (.esClientException "Elasticsearch version 7.17.0 not supported") ∧
    check_version true [8, 0, 0] [8, 99, 99] "99.0.0".data = .ok () := by
  refine ⟨?_, ?_, ?_⟩
  · exact ((check_version_correct [8, 0, 0] [8, 99, 99] "8.11.4".data).1
      [8, 11, 4] (by decide)).2.1 (by decide) (by decide)
  · exact ((check_version_correct [8, 0, 0] [8, 99, 99] "7.17.0-SNAPSHOT".data).1
      [7, 17, 0] (by decide)).2.2 (Or.inr (by decide))
  · exact ((check_version_correct [8, 0, 0] [8, 99, 99] "99.0.0".data).1
      [99, 0, 0] (by decide)).1

theorem get_secret_store_same (st : SecretStore) (name : String) (v : SVal) :
    get_secret (store_secret st name v) name = some v := by
  simp [get_secret, store_secret, List.find?]

theorem find?_filter_ne (st : SecretStore) (n m : String) (h : m ≠ n) :
    (st.filter (fun kv => kv.1 ≠ n)).find? (fun kv => kv.1 = m) =
      st.find? (fun kv => kv.1 = m) := by
  induction st with
  | nil => rfl
  | cons kv rest ih =>
    by_cases hn : kv.1 = n
    · have hm : ¬(kv.1 = m) := by rw [hn]; exact fun hh => h hh.symm
      rw [List.filter_cons_of_neg (by simpa using hn),
        List.find?_cons_of_neg _ (by simpa using hm), ih]
    · rw [List.filter_cons_of_pos (by simpa using hn)]
      by_cases hm : kv.1 = m
      · rw [List.find?_cons_of_pos _ (by simpa using hm),
          List.find?_cons_of_pos _ (by simpa using hm)]
      · rw [List.find?_cons_of_neg _ (by simpa using hm),
          List.find?_cons_of_neg _ (by simpa using hm), ih]

theorem get_secret_store_other (st : SecretStore) (n m : String) (v : SVal)
    (h : m ≠ n) : get_secret (store_secret st n v) m = get_secret st m := by
  simp only [get_secret, store_secret]
  rw [List.find?_cons_of_neg _ (by simpa using fun hh => h hh.symm),
    find?_filter_ne st n m h]

theorem get_secret_migrate_other (st : SecretStore) (n m : String)
    (v : Option SVal) (h : m ≠ n) :
    get_secret (migrateField st n v).1 m = get_secret st m := by
  cases v
  · rfl
  · exact get_secret_store_other _ _ _ _ h

/-- C1: via `Builder._check_cloud_id`, with a cloud identifier set: a
host list equal to exactly the built-in default
`["http://127.0.0.1:9200"]` is resolved to `None` without error; a
host list holding any other value raises `ConfigurationError`; an
already-absent host list passes through unchanged. -/
theorem check_cloud_id_correct (b : Builder) (cid : String)
    (hc : b.client_args.cloud_id = some cid) :
    (b.client_args.hosts = some ["http://127.0.0.1:9200"] →
      check_cloud_id b =
        .ok { b with client_args := { b.client_args with hosts := none } }) ∧
    (∀ l, b.client_args.hosts = some l → l ≠ ["http://127.0.0.1:9200"] →
      check_cloud_id b =
        .error (.configurationError HOSTS_AND_CLOUD_ID_CONFLICT)) ∧
    (b.client_args.hosts = none → check_cloud_id b = .ok b) := by
  refine ⟨?_, ?_, ?_⟩
  · intro hh
    simp only [check_cloud_id, hc]
    rw [if_pos ⟨hh, by rw [hh]; rfl⟩]
  · intro l hl hne
    simp only [check_cloud_id, hc]
    rw [if_neg (fun hcond => hne (by rw [hl] at hcond; exact Option.some.inj hcond.1))]
    simp only [hl]
  · intro hh
    simp only [check_cloud_id, hc]
    rw [if_neg (fun hcond => by rw [hh] at hcond; exact Option.noConfusion hcond.1)]
    simp only [hh]

/-- Witness for C1: with `cloud_id` set, the default host list is
cleared and resolution succeeds; a non-default host list raises the
conflict error. -/
theorem check_cloud_id_correct_witness :
    check_cloud_id (update_config (mkBuilder cfgCloudDefault)) =
      .ok { update_config (mkBuilder cfgCloudDefault) with
            client_args :=
              { (update_config (mkBuilder cfgCloudDefault)).client_args with
                hosts := none } } ∧
    check_cloud_id (update_config (mkBuilder cfgCloudHosts)) =
      .error (.configurationError HOSTS_AND_CLOUD_ID_CONFLICT) := by
  constructor
  · exact (check_cloud_id_correct _ "cid" rfl).1 rfl
  · exact (check_cloud_id_correct _ "cid" rfl).2.1 ["http://esnode:9200"] rfl
      (by decide)

/-- C2: through `update_config` (which migrates the configured
password into the Secret Store) followed by `_check_basic_auth`:
supplying exactly one of username/password raises
`ConfigurationError`; supplying neither succeeds and changes nothing;
supplying both succeeds and stores the pair `(username, password)`
under `basic_auth` in the Secret Store. -/
theorem check_basic_auth_correct (cfg : Config) :
    (∀ u, cfg.other_settings.username = some u →
      cfg.other_settings.password = none →
      check_basic_auth (update_config (mkBuilder cfg)) =
        .error (.configurationError MUST_PROVIDE_BOTH_AUTH)) ∧
    (∀ p, cfg.other_settings.username = none →
      cfg.other_settings.password = some p →
      check_basic_auth (update_config (mkBuilder cfg)) =
        .error (.configurationError MUST_PROVIDE_BOTH_AUTH)) ∧
    (cfg.other_settings.username = none → cfg.other_settings.password = none →
      check_basic_auth (update_config (mkBuilder cfg)) =
        .ok (update_config (mkBuilder cfg))) ∧
    (∀ u p, cfg.other_settings.username = some u →
      cfg.other_settings.password = some p →
      ∃ b', check_basic_auth (update_config (mkBuilder cfg)) = .ok b' ∧
        get_secret b'.secrets "basic_auth" =
          some (.pair (.str u) (.str p))) := by
  have hu : (update_config (mkBuilder cfg)).other_args.username
      = cfg.other_settings.username := rfl
  have hpw_some : ∀ p, cfg.other_settings.password = some p →
      get_secret_py (update_config (mkBuilder cfg)).secrets "password"
        = .str p := by
    intro p hp
    simp only [update_config, mkBuilder, hp, get_secret_py]
    rw [get_secret_store_same]
    rfl
  have hpw_none : cfg.other_settings.password = none →
      get_secret_py (update_config (mkBuilder cfg)).secrets "password"
        = .null := by
    intro hp
    simp only [update_config, mkBuilder, hp, get_secret_py]
    rw [get_secret_migrate_other _ _ _ _ (by decide),
      get_secret_migrate_other _ _ _ _ (by decide),
      get_secret_migrate_other _ _ _ _ (by decide)]
    rfl
  refine ⟨?_, ?_, ?_, ?_⟩
  · intro u hus hpn
    have h1 : (update_config (mkBuilder cfg)).other_args.username = some u :=
      hu.trans hus
    simp only [check_basic_auth, h1, hpw_none hpn]
  · intro p hun hps
    have h1 : (update_config (mkBuilder cfg)).other_args.username = none :=
      hu.trans hun
    simp only [check_basic_auth, h1, hpw_some p hps]
  · intro hun hpn
    have h1 : (update_config (mkBuilder cfg)).other_args.username = none :=
      hu.trans hun
    simp only [check_basic_auth, h1, hpw_none hpn]
  · intro u p hus hps
    have h1 : (update_config (mkBuilder cfg)).other_args.username = some u :=
      hu.trans hus
    have heq : check_basic_auth (update_config (mkBuilder cfg)) =
        .ok { update_config (mkBuilder cfg) with
              secrets := store_secret (update_config (mkBuilder cfg)).secrets
                "basic_auth" (.pair (.str u) (.str p)) } := by
      simp only [check_basic_auth, h1, hpw_some p hps]
    exact ⟨_, heq, get_secret_store_same _ _ _⟩

/-- Witness for C2: username alone is rejected; username plus password
resolves to a stored `basic_auth` pair. -/
theorem check_basic_auth_correct_witness :
    check_basic_auth (update_config (mkBuilder cfgUserOnly)) =
      .error (.configurationError MUST_PROVIDE_BOTH_AUTH) ∧
    (∃ b', check_basic_auth (update_config (mkBuilder cfgUserPass)) = .ok b' ∧
      get_secret b'.secrets "basic_auth" =
        some (.pair (.str "u") (.str "p"))) := by
  constructor
  · exact (check_basic_auth_correct cfgUserOnly).1 "u" rfl rfl
  · exact (check_basic_auth_correct cfgUserPass).2.2.2 "u" "p" rfl rfl

/-- C4: the token takes precedence over explicit `id`/`api_key`
values: whenever the working `api_key` settings carry the token
`"Zm9vOmJhcg=="` (base64 of `foo:bar`) alongside any `id` and
`api_key` values, `_check_api_key` succeeds and the Secret Store entry
`api_key` holds `("foo", "bar")` — not the explicit values. -/
theorem check_api_key_token_precedence (b : Builder) (idv keyv : Option String)
    (h : b.other_args.api_key = some ⟨idv, keyv, some "Zm9vOmJhcg=="⟩) :
    ∃ b', check_api_key b = .ok b' ∧
      get_secret b'.secrets "api_key" =
        some (.pair (.str "foo") (.str "bar")) := by
  have hp : parse_apikey_token "Zm9vOmJhcg==".data =
      .ok ("foo".data, "bar".data) := by decide
  have heq : check_api_key b =
      .ok (tokenBranchResult b "foo".data "bar".data) := by
    simp only [check_api_key, tokenBranchResult, h, Option.getD_some]
    rw [if_pos (by decide), hp]
  exact ⟨_, heq, get_secret_store_same _ _ _⟩

/-- Witness for C4 at the spec's concrete input: token
`"Zm9vOmJhcg=="` together with explicit `id = "x"`, `api_key = "y"`
resolves the `api_key` secret to `("foo", "bar")`. -/
theorem check_api_key_token_precedence_witness :
    ∃ b', check_api_key (update_config (mkBuilder cfgTokenAndId)) = .ok b' ∧
      get_secret b'.secrets "api_key" =
        some (.pair (.str "foo") (.str "bar")) :=
  check_api_key_token_precedence _ (some "x") (some "y") rfl

/-- C8: the secret-migration step `update_config` is idempotent: a
second run on any Builder state reproduces exactly the same state —
Secret Store contents included — and raises nothing (the model is a
total function); moreover `_check_basic_auth` on a state whose
`password` secret is missing and whose `username` is null is a no-op,
so an empty password entry never fabricates a `basic_auth` pair. -/
theorem update_config_idempotent (b : Builder) :
    update_config (update_config b) = update_config b ∧
    (∀ c : Builder, get_secret c.secrets "password" = none →
      c.other_args.username = none → check_basic_auth c = .ok c) := by
  constructor
  · obtain ⟨⟨⟨hs, ci, ba, ak, bt⟩, ⟨mo, sv, un, pw, akc⟩⟩, car, oar, st, m, im, sk⟩ := b
    cases ba <;> cases ak <;> cases bt <;> cases pw <;>
      simp [update_config, migrateField]
  · intro c hpw hun
    simp only [check_basic_auth, hun, get_secret_py, hpw, Option.getD_none]

/-- Witness for C8: a configuration exercising every secret slot is a
fixed point of a second `update_config`, and a fresh Builder with no
password secret passes `_check_basic_auth` unchanged. -/
theorem update_config_idempotent_witness :
    update_config (update_config (mkBuilder cfgAllSecrets)) =
      update_config (mkBuilder cfgAllSecrets) ∧
    check_basic_auth (mkBuilder cfgCloudDefault) =
      .ok (mkBuilder cfgCloudDefault) :=
  ⟨(update_config_idempotent (mkBuilder cfgAllSecrets)).1,
   (update_config_idempotent (mkBuilder cfgAllSecrets)).2
     (mkBuilder cfgCloudDefault) rfl rfl⟩

/-- Witness for C10 at a concrete dictionary: an ordinary entry
survives `prune_nones`, while a `None`-valued entry and an entry whose
value is the string `"None"` are both dropped. -/
theorem prune_nones_mem_witness :
    ("a", Val.vNat 1) ∈
      prune_nones [("a", Val.vNat 1), ("b", Val.vNone), ("c", Val.vStr "None")] ∧
    ("b", Val.vNone) ∉
      prune_nones [("a", Val.vNat 1), ("b", Val.vNone), ("c", Val.vStr "None")] ∧
    ("c", Val.vStr "None") ∉
      prune_nones [("a", Val.vNat 1), ("b", Val.vNone), ("c", Val.vStr "None")] := by
  refine ⟨?_, ?_, ?_⟩
  · exact (prune_nones_mem _ "a" (Val.vNat 1)).mpr
      ⟨by simp, fun h => Val.noConfusion h, fun h => Val.noConfusion h⟩
  · intro hmem
    exact absurd rfl ((prune_nones_mem _ "b" Val.vNone).mp hmem).2.1
  · intro hmem
    exact absurd rfl ((prune_nones_mem _ "c" (Val.vStr "None")).mp hmem).2.2

end EsClient
